import Mathlib

/-!
Shallow embedding of src/server.py (INDIAN-STOCKS-MCP).

The repository is a single Python module exposing ~20 MCP tools over one
shared request helper `_make_api_request`.  We embed that helper and the
tool shims as pure Lean functions over an explicit `World` describing the
ambient effects the Python code interacts with:

  * `env`    models `os.getenv` at call time;
  * `http`   models the behaviour of `requests.get` (either raising a
             transport-level `RequestException`, or yielding a response
             with a status code and a body text);
  * `parse`  models `response.json()` of the third-party `requests`
             library: `some j` when the body parses as JSON value `j`,
             `none` when it raises `json.JSONDecodeError`;
  * `sink`   models the diagnostic `print` calls: `w.sink n` is the
             outcome of the n-th print attempted during one invocation
             (`none` = success, `some m` = the sink raises `OSError(m)`);
  * `baseUrl` models the module-level `API_BASE_URL` value frozen at
             import.

A call returns `Except PyExc Envelope` (an envelope, or a propagated
Python exception) together with the list of HTTP requests issued by
`requests.get` during the call.
-/

/-- JSON values, the codomain of the abstracted `response.json()`. -/
inductive Json where
  | null : Json
  | bool (b : Bool) : Json
  | num (n : Int) : Json
  | str (s : String) : Json
  | arr (elems : List Json) : Json
  | obj (fields : List (String × Json)) : Json

/-- The `details` field of an error envelope: either a parsed JSON value
(`HttpError` with a parseable body) or a raw-text excerpt. -/
inductive Details where
  | json (j : Json) : Details
  | text (s : String) : Details

/-- The response envelope dictionaries returned by `_make_api_request`:
`success` carries the `response` field, `error` carries `error_type`,
`message` and the optional `details`. -/
inductive Envelope where
  | success (response : Json) : Envelope
  | error (error_type : String) (message : String) (details : Option Details) : Envelope

/-- The `status` field of the envelope dictionary. -/
def Envelope.statusStr : Envelope → String
  | Envelope.success _ => "success"
  | Envelope.error _ _ _ => "error"

/-- The `error_type` field of the envelope dictionary, when present. -/
def Envelope.errorType : Envelope → Option String
  | Envelope.success _ => none
  | Envelope.error t _ _ => some t

/-- The `details` field of the envelope dictionary, when present. -/
def Envelope.detailsField : Envelope → Option Details
  | Envelope.success _ => none
  | Envelope.error _ _ d => d

/-- The `response` field of the envelope dictionary, when present. -/
def Envelope.responseField : Envelope → Option Json
  | Envelope.success r => some r
  | Envelope.error _ _ _ => none

/-- Python exceptions relevant to `_make_api_request`:
`requests.exceptions.HTTPError` (raised by `raise_for_status`), any other
`requests.exceptions.RequestException` (transport failure), and any other
`Exception` (for instance an `OSError` raised by a failing `print`). -/
inductive PyExc where
  | httpError (msg : String) : PyExc
  | requestError (msg : String) : PyExc
  | other (msg : String) : PyExc

/-- Python `str(e)` on the exceptions we model. -/
def PyExc.pyStr : PyExc → String
  | PyExc.httpError m => m
  | PyExc.requestError m => m
  | PyExc.other m => m

/-- Behaviour of `requests.get` when invoked: either it raises (a
transport-level failure such as DNS, connection or timeout error), or it
returns a response with an HTTP status code and a body text. -/
inductive HttpResult where
  | raises (e : PyExc) : HttpResult
  | ok (status : Nat) (body : String) : HttpResult

/-- The observable data of one outbound `requests.get` call. -/
structure HttpRequest where
  url : String
  headers : List (String × String)
  params : Option (List (String × String))
  timeout : Nat

/-- The keys that appear in the outbound query string of a request:
`requests` builds the query string from the `params` mapping, one
`key=value` pair per entry, omitted keys never appear. -/
def HttpRequest.queryKeys (r : HttpRequest) : List String :=
  (r.params.getD []).map Prod.fst

/-- Rendering of the outbound query string from the params mapping
(abstracts the `requests` URL encoder; one pair per mapping entry). -/
def renderQuery (params : Option (List (String × String))) : String :=
  String.intercalate "&" ((params.getD []).map (fun kv => kv.1 ++ "=" ++ kv.2))

/-- The query string of an issued request. -/
def HttpRequest.queryString (r : HttpRequest) : String :=
  renderQuery r.params

/-- The ambient world of one invocation: environment, network, JSON
parser and log sink. -/
structure World where
  env : String → Option String
  http : HttpResult
  parse : String → Option Json
  sink : Nat → Option String
  baseUrl : String

/-- Python truthiness of an optional string (`None` and `""` are falsy). -/
def pyTruthy : Option String → Bool
  | none => false
  | some s => !s.isEmpty

/-- server.py line 9: the primary API-key environment variable name. -/
def API_KEY_ENV_VAR : String := "INDIANAPI_KEY"

/-- server.py line 9 sibling: the compatibility variable name read at
module load (line 12). -/
def FALLBACK_KEY_ENV_VAR : String := "FINANCE_API_KEY"

/-- server.py line 7: default base URL when FINANCE_API_BASE_URL is unset. -/
def API_BASE_URL_DEFAULT_LITERAL : String := "https://stock.indianapi.in"

/-- server.py lines 7-8: `API_BASE_URL` as computed at import from the
initial environment (`os.getenv` with a default). -/
def initBaseUrl (env : String → Option String) : String :=
  (env "FINANCE_API_BASE_URL").getD API_BASE_URL_DEFAULT_LITERAL

/-- Environment update, modelling `os.environ[k] = v`. -/
def setEnv (env : String → Option String) (k v : String) : String → Option String :=
  fun x => if x = k then some v else env x

/-- Python `a or b` on optional strings (first truthy value wins). -/
def pyOrStr (a b : Option String) : Option String :=
  if pyTruthy a then a else b

/-- server.py lines 12-14, executed once at module import: read both
recognized key variables (`INDIANAPI_KEY` first, `FINANCE_API_KEY`
second, first truthy wins) and, when a key was found, copy it into
`INDIANAPI_KEY` in the process environment. -/
def initEnv (env : String → Option String) : String → Option String :=
  match pyOrStr (env API_KEY_ENV_VAR) (env FALLBACK_KEY_ENV_VAR) with
  | none => env
  | some k => if k.isEmpty then env else setEnv env API_KEY_ENV_VAR k

/-- server.py line 25: the ConfigurationError message. -/
def configErrorMessage : String :=
  "API key \x27INDIANAPI_KEY\x27 is not configured in the environment."

/-- Abstraction of `str(http_err)` for the `HTTPError` raised by
`response.raise_for_status()` (message text of the `requests` library;
its exact shape is not part of the repository). -/
def httpErrorMessage (status : Nat) (url : String) : String :=
  if status < 500 then
    toString status ++ " Client Error for url: " ++ url
  else
    toString status ++ " Server Error for url: " ++ url

/-- `response.raise_for_status()` raises exactly when the status code is
in [400, 600). -/
def raisesForStatus (status : Nat) : Bool :=
  decide (400 ≤ status) && decide (status < 600)

/-- server.py lines 47-73, the outer `except` clauses: given the raised
exception `e`, the response obtained so far (if `requests.get` returned
one), the world and the index `c` of the next print attempt, produce the
handler result.  `except HTTPError` parses the body again for `details`
(line 50-52); `except RequestException` and `except Exception` build
their envelopes; each handler prints once, and an exception raised by
that print propagates out of the function (it is inside the handler, not
inside the `try` body). -/
def outerHandlers (w : World) (e : PyExc) (resp : Option (Nat × String)) (c : Nat) :
    Except PyExc Envelope :=
  match e with
  | PyExc.httpError m =>
    let details : Details :=
      match resp with
      | some (_, body) =>
        match w.parse body with
        | some j => Details.json j
        | none => Details.text (body.take 500)
      | none => Details.text ""
    match w.sink c with
    | some pm => Except.error (PyExc.other pm)
    | none => Except.ok (Envelope.error "HttpError" m (some details))
  | PyExc.requestError m =>
    match w.sink c with
    | some pm => Except.error (PyExc.other pm)
    | none => Except.ok (Envelope.error "RequestError" m none)
  | PyExc.other m =>
    match w.sink c with
    | some pm => Except.error (PyExc.other pm)
    | none =>
      Except.ok (Envelope.error "ServerError"
        ("An unexpected server error occurred: " ++ m) none)

/-- server.py lines 20-26: the missing-key branch.  The print on line 21
is outside every `try`, so a failing sink propagates. -/
def configPath (w : World) : Except PyExc Envelope × List HttpRequest :=
  match w.sink 0 with
  | some m => (Except.error (PyExc.other m), [])
  | none =>
    (Except.ok (Envelope.error "ConfigurationError" configErrorMessage none), [])

/-- server.py lines 27-31 and 34: the single `requests.get` call issued
when the request path reaches it: URL is `API_BASE_URL + endpoint`,
headers are `X-Api-Key` and `Accept`, params are passed through,
timeout is the fixed 15 seconds. -/
def mkRequest (w : World) (k endpoint : String)
    (params : Option (List (String × String))) : HttpRequest :=
  { url := w.baseUrl ++ endpoint
    headers := [("X-Api-Key", k), ("Accept", "application/json")]
    params := params
    timeout := 15 }

/-- server.py lines 34-73 after the pre-request print succeeded: the
`requests.get` outcome (line 34), `raise_for_status` (line 35), the
inner `try`/`except json.JSONDecodeError` (lines 36-46, with its print
at index 1 on the non-JSON path), with the outer handlers catching
exceptions raised anywhere in the `try` body, including in the inner
`except` handler. -/
def mainBody (w : World) (endpoint : String) : Except PyExc Envelope :=
  let url := w.baseUrl ++ endpoint
  match w.http with
  | HttpResult.raises e => outerHandlers w e none 1
  | HttpResult.ok status body =>
    if raisesForStatus status then
      outerHandlers w (PyExc.httpError (httpErrorMessage status url))
        (some (status, body)) 1
    else
      match w.parse body with
      | some d => Except.ok (Envelope.success d)
      | none =>
        match w.sink 1 with
        | some m => outerHandlers w (PyExc.other m) (some (status, body)) 2
        | none =>
          Except.ok (Envelope.error "InvalidResponseFormat"
            "API returned a non-JSON response."
            (some (Details.text (body.take 500))))

/-- server.py lines 27-73 with a configured key `k`: headers and URL are
built, then the `try` body runs: print (line 33, print index 0; if it
raises, the outer `except Exception` catches it and `requests.get` is
never reached), then the request is issued and `mainBody` classifies the
outcome. -/
def mainPath (w : World) (k endpoint : String)
    (params : Option (List (String × String))) :
    Except PyExc Envelope × List HttpRequest :=
  match w.sink 0 with
  | some m => (outerHandlers w (PyExc.other m) none 1, [])
  | none => (mainBody w endpoint, [mkRequest w k endpoint params])

/-- server.py lines 18-73, `_make_api_request(endpoint, params)`: read
the API key from the environment at call time (line 19); if it is absent
or empty (Python falsy), return the ConfigurationError envelope without
touching the network; otherwise run the request path. -/
def _make_api_request (w : World) (endpoint : String)
    (params : Option (List (String × String))) :
    Except PyExc Envelope × List HttpRequest :=
  match w.env API_KEY_ENV_VAR with
  | none => configPath w
  | some k => if k.isEmpty then configPath w else mainPath w k endpoint params

/-!  Tool shims (server.py lines 76-186).  Each Python tool assembles a
params mapping from its arguments and delegates to `_make_api_request`
with its fixed path.  Optional string parameters defaulting to `None`
are modelled as `Option String` (the caller passes `none` to omit the
argument).  For each tool with parameters, a `_params` function exposes
the mapping the tool passes to the executor.  -/

/-- server.py lines 76-77. -/
def get_ipo_data (w : World) : Except PyExc Envelope × List HttpRequest :=
  _make_api_request w "/ipo" none

/-- server.py lines 81-86: the params argument of get_news_data
(`params or None` yields `None` when the dict stayed empty). -/
def get_news_data_params (query symbol : Option String) :
    Option (List (String × String)) :=
  let params :=
    (if pyTruthy query then [("q", query.getD "")] else []) ++
    (if pyTruthy symbol then [("symbol", symbol.getD "")] else [])
  if params.isEmpty then none else some params

/-- server.py lines 80-86. -/
def get_news_data (w : World) (query symbol : Option String) :
    Except PyExc Envelope × List HttpRequest :=
  _make_api_request w "/news" (get_news_data_params query symbol)

/-- server.py line 90. -/
def get_stock_details_params (name : String) : Option (List (String × String)) :=
  some [("name", name)]

/-- server.py lines 89-90. -/
def get_stock_details (w : World) (name : String) :
    Except PyExc Envelope × List HttpRequest :=
  _make_api_request w "/stock" (get_stock_details_params name)

/-- server.py lines 93-94. -/
def get_trending_stocks (w : World) : Except PyExc Envelope × List HttpRequest :=
  _make_api_request w "/trending" none

/-- server.py line 99. -/
def get_financial_statement_params (stock_name stats statement_type period : String) :
    Option (List (String × String)) :=
  some [("stock_name", stock_name), ("stats", stats),
        ("type", statement_type), ("period", period)]

/-- server.py lines 97-100 (statement_type defaults to "income", period
to "annual" in Python; an omitted argument is the default value). -/
def get_financial_statement (w : World)
    (stock_name stats statement_type period : String) :
    Except PyExc Envelope × List HttpRequest :=
  _make_api_request w "/statement"
    (get_financial_statement_params stock_name stats statement_type period)

/-- server.py lines 104-107. -/
def get_commodities_data_params (commodity_name : Option String) :
    Option (List (String × String)) :=
  let params := if pyTruthy commodity_name then [("name", commodity_name.getD "")] else []
  if params.isEmpty then none else some params

/-- server.py lines 103-107. -/
def get_commodities_data (w : World) (commodity_name : Option String) :
    Except PyExc Envelope × List HttpRequest :=
  _make_api_request w "/commodities" (get_commodities_data_params commodity_name)

/-- server.py lines 111-114. -/
def get_mutual_funds_data_params (category : Option String) :
    Option (List (String × String)) :=
  let params := if pyTruthy category then [("category", category.getD "")] else []
  if params.isEmpty then none else some params

/-- server.py lines 110-114. -/
def get_mutual_funds_data (w : World) (category : Option String) :
    Except PyExc Envelope × List HttpRequest :=
  _make_api_request w "/mutual_funds" (get_mutual_funds_data_params category)

/-- server.py lines 117-118. -/
def get_price_shockers_data (w : World) : Except PyExc Envelope × List HttpRequest :=
  _make_api_request w "/price_shockers" none

/-- server.py lines 121-122. -/
def get_bse_most_active_stocks (w : World) : Except PyExc Envelope × List HttpRequest :=
  _make_api_request w "/BSE_most_active" none

/-- server.py lines 125-126. -/
def get_nse_most_active_stocks (w : World) : Except PyExc Envelope × List HttpRequest :=
  _make_api_request w "/NSE_most_active" none

/-- server.py lines 130-135. -/
def get_historical_stock_data_params (symbol from_date to_date interval : String) :
    Option (List (String × String)) :=
  some [("symbol", symbol), ("from", from_date), ("to", to_date),
        ("interval", interval)]

/-- server.py lines 129-136 (interval defaults to "1d" in Python). -/
def get_historical_stock_data (w : World) (symbol from_date to_date interval : String) :
    Except PyExc Envelope × List HttpRequest :=
  _make_api_request w "/historical_data"
    (get_historical_stock_data_params symbol from_date to_date interval)

/-- server.py line 140. -/
def search_by_industry_params (industry_query : String) :
    Option (List (String × String)) :=
  some [("query", industry_query)]

/-- server.py lines 139-140. -/
def search_by_industry (w : World) (industry_query : String) :
    Except PyExc Envelope × List HttpRequest :=
  _make_api_request w "/industry_search" (search_by_industry_params industry_query)

/-- server.py line 144. -/
def get_stock_forecasts_params (symbol : String) : Option (List (String × String)) :=
  some [("symbol", symbol)]

/-- server.py lines 143-144. -/
def get_stock_forecasts (w : World) (symbol : String) :
    Except PyExc Envelope × List HttpRequest :=
  _make_api_request w "/stock_forecasts" (get_stock_forecasts_params symbol)

/-- server.py line 148. -/
def get_historical_stats_params (stock_name stats : String) :
    Option (List (String × String)) :=
  some [("stock_name", stock_name), ("stats", stats)]

/-- server.py lines 147-149 (stats defaults to "volatility" in Python). -/
def get_historical_stats (w : World) (stock_name stats : String) :
    Except PyExc Envelope × List HttpRequest :=
  _make_api_request w "/historical_stats" (get_historical_stats_params stock_name stats)

/-- server.py lines 153-155. -/
def get_corporate_actions_params (symbol : String) (action_type : Option String) :
    Option (List (String × String)) :=
  some ([("symbol", symbol)] ++
    (if pyTruthy action_type then [("type", action_type.getD "")] else []))

/-- server.py lines 152-156. -/
def get_corporate_actions (w : World) (symbol : String) (action_type : Option String) :
    Except PyExc Envelope × List HttpRequest :=
  _make_api_request w "/corporate_actions"
    (get_corporate_actions_params symbol action_type)

/-- server.py lines 160-162. -/
def search_mutual_funds_params (query : String) (category : Option String) :
    Option (List (String × String)) :=
  some ([("q", query)] ++
    (if pyTruthy category then [("category", category.getD "")] else []))

/-- server.py lines 159-163. -/
def search_mutual_funds (w : World) (query : String) (category : Option String) :
    Except PyExc Envelope × List HttpRequest :=
  _make_api_request w "/mutual_fund_search" (search_mutual_funds_params query category)

/-- server.py line 167. -/
def get_stock_target_price_params (symbol : String) :
    Option (List (String × String)) :=
  some [("symbol", symbol)]

/-- server.py lines 166-167. -/
def get_stock_target_price (w : World) (symbol : String) :
    Except PyExc Envelope × List HttpRequest :=
  _make_api_request w "/stock_target_price" (get_stock_target_price_params symbol)

/-- server.py line 171. -/
def get_mutual_fund_details_params (scheme_code : String) :
    Option (List (String × String)) :=
  some [("scheme_code", scheme_code)]

/-- server.py lines 170-171. -/
def get_mutual_fund_details (w : World) (scheme_code : String) :
    Except PyExc Envelope × List HttpRequest :=
  _make_api_request w "/mutual_funds_details" (get_mutual_fund_details_params scheme_code)

/-- server.py lines 175-177. -/
def get_recent_announcements_params (symbol : Option String) :
    Option (List (String × String)) :=
  let params := if pyTruthy symbol then [("symbol", symbol.getD "")] else []
  if params.isEmpty then none else some params

/-- server.py lines 174-178. -/
def get_recent_announcements (w : World) (symbol : Option String) :
    Except PyExc Envelope × List HttpRequest :=
  _make_api_request w "/recent_announcements" (get_recent_announcements_params symbol)

/-- server.py lines 182-184. -/
def fetch_52_week_high_low_data_params (range_type : String) (exchange : Option String) :
    Option (List (String × String)) :=
  some ([("type", range_type)] ++
    (if pyTruthy exchange then [("exchange", exchange.getD "")] else []))

/-- server.py lines 181-185 (range_type defaults to "high" in Python). -/
def fetch_52_week_high_low_data (w : World) (range_type : String) (exchange : Option String) :
    Except PyExc Envelope × List HttpRequest :=
  _make_api_request w "/fetch_52_week_high_low_data"
    (fetch_52_week_high_low_data_params range_type exchange)

/-!  Concrete data for witness runs: environments, parse oracles, log
sinks and worlds used to evaluate the executor on closed inputs.  -/

/-- The list of keys of a params mapping (the keys that appear in the
outbound query string built from it). -/
def paramKeys (p : Option (List (String × String))) : List String :=
  (p.getD []).map Prod.fst

/-- A concrete environment holding only the primary API key variable. -/
def envKeyOnly : String → Option String :=
  fun v => if v = "INDIANAPI_KEY" then some "testkey" else none

/-- A concrete environment with no variables set. -/
def envEmpty : String → Option String := fun _ => none

/-- A concrete environment holding only the fallback key variable. -/
def envFallbackOnly : String → Option String :=
  fun v => if v = "FINANCE_API_KEY" then some "fallbackkey" else none

/-- A concrete environment setting both recognized key variables. -/
def envBothKeys : String → Option String :=
  fun v =>
    if v = "INDIANAPI_KEY" then some "primarykey"
    else if v = "FINANCE_API_KEY" then some "fallbackkey" else none

/-- A log sink that never fails. -/
def sinkOk : Nat → Option String := fun _ => none

/-- A log sink whose first print attempt raises an OSError. -/
def sinkFailFirst : Nat → Option String :=
  fun n => if n = 0 then some "stdout closed" else none

/-- A parse oracle on which no body text parses as JSON. -/
def parseNothing : String → Option Json := fun _ => none

/-- A parse oracle for the two JSON bodies used in concrete runs: the
empty object and the 404-style error body. -/
def parseSample : String → Option Json :=
  fun s =>
    if s = "\x7b\x7d" then some (Json.obj [])
    else if s = "\x7b\x22detail\x22:\x22not found\x22\x7d" then
      some (Json.obj [("detail", Json.str "not found")])
    else none

/-- World: configured key, reliable sink, HTTP 200 with a JSON body. -/
def wSuccessJson : World :=
  { env := envKeyOnly, http := HttpResult.ok 200 "\x7b\x7d",
    parse := parseSample, sink := sinkOk, baseUrl := API_BASE_URL_DEFAULT_LITERAL }

/-- World: configured key, reliable sink, HTTP 200 with a non-JSON body. -/
def wSuccessNotJson : World :=
  { env := envKeyOnly, http := HttpResult.ok 200 "not-json",
    parse := parseNothing, sink := sinkOk, baseUrl := API_BASE_URL_DEFAULT_LITERAL }

/-- World: configured key, reliable sink, HTTP 404 with a JSON error body. -/
def w404 : World :=
  { env := envKeyOnly,
    http := HttpResult.ok 404 "\x7b\x22detail\x22:\x22not found\x22\x7d",
    parse := parseSample, sink := sinkOk, baseUrl := API_BASE_URL_DEFAULT_LITERAL }

/-- World: configured key, reliable sink, HTTP 304 (a non-2xx status for
which `raise_for_status` does not raise) with a non-JSON body. -/
def w304 : World :=
  { env := envKeyOnly, http := HttpResult.ok 304 "not-json",
    parse := parseNothing, sink := sinkOk, baseUrl := API_BASE_URL_DEFAULT_LITERAL }

/-- World: configured key, reliable sink, transport-level failure. -/
def wTimeout : World :=
  { env := envKeyOnly,
    http := HttpResult.raises (PyExc.requestError "connection timed out"),
    parse := parseNothing, sink := sinkOk, baseUrl := API_BASE_URL_DEFAULT_LITERAL }

/-- World: no key configured, reliable sink. -/
def wNoKey : World :=
  { env := envEmpty, http := HttpResult.ok 200 "\x7b\x7d",
    parse := parseSample, sink := sinkOk, baseUrl := API_BASE_URL_DEFAULT_LITERAL }

/-- World: no key configured and the first print raises. -/
def wNoKeySinkCrash : World :=
  { env := envEmpty, http := HttpResult.ok 200 "\x7b\x7d",
    parse := parseSample, sink := sinkFailFirst, baseUrl := API_BASE_URL_DEFAULT_LITERAL }

/-- World: configured key and a 200 JSON response, identical to
`wSuccessJson` except that the first print raises. -/
def wSinkCrash : World :=
  { env := envKeyOnly, http := HttpResult.ok 200 "\x7b\x7d",
    parse := parseSample, sink := sinkFailFirst, baseUrl := API_BASE_URL_DEFAULT_LITERAL }

/-!  Helper lemmas about the executor, shared by the claim theorems.  -/

/-- The missing-key branch never issues a request. -/
theorem configPath_trace (w : World) : (configPath w).2 = [] := by
  unfold configPath
  cases w.sink 0 <;> rfl

/-- When the pre-request print succeeds, the request path issues exactly
the single request built by `mkRequest`. -/
theorem mainPath_trace_of_sink (w : World) (k endpoint : String)
    (p : Option (List (String × String))) (hs : w.sink 0 = none) :
    (mainPath w k endpoint p).2 = [mkRequest w k endpoint p] := by
  unfold mainPath
  rw [hs]

/-- When the pre-request print succeeds, the request path classifies the
outcome via `mainBody`. -/
theorem mainPath_fst_of_sink (w : World) (k endpoint : String)
    (p : Option (List (String × String))) (hs : w.sink 0 = none) :
    (mainPath w k endpoint p).1 = mainBody w endpoint := by
  unfold mainPath
  rw [hs]

/-- The request path issues at most one request. -/
theorem mainPath_trace (w : World) (k endpoint : String)
    (p : Option (List (String × String))) :
    (mainPath w k endpoint p).2 = [] ∨
      (mainPath w k endpoint p).2 = [mkRequest w k endpoint p] := by
  unfold mainPath
  cases w.sink 0 <;> simp

/-- An outer handler whose print succeeds returns an envelope. -/
theorem outerHandlers_ok (w : World) (e : PyExc) (resp : Option (Nat × String))
    (c : Nat) (h : w.sink c = none) :
    ∃ env, outerHandlers w e resp c = Except.ok env := by
  unfold outerHandlers
  cases e <;> rw [h] <;> exact ⟨_, rfl⟩

/-- A truthy environment lookup yields a nonempty key string. -/
theorem env_key_of_truthy (w : World)
    (h : pyTruthy (w.env API_KEY_ENV_VAR) = true) :
    ∃ k, w.env API_KEY_ENV_VAR = some k ∧ k.isEmpty = false := by
  cases hk : w.env API_KEY_ENV_VAR with
  | none => rw [hk] at h; simp [pyTruthy] at h
  | some k =>
    rw [hk] at h
    simp [pyTruthy] at h
    exact ⟨k, rfl, by simpa using h⟩

/-- With a configured (nonempty) key the executor runs the request path. -/
theorem make_of_key (w : World) (endpoint : String)
    (p : Option (List (String × String))) (k : String)
    (hk : w.env API_KEY_ENV_VAR = some k) (hke : k.isEmpty = false) :
    _make_api_request w endpoint p = mainPath w k endpoint p := by
  unfold _make_api_request
  rw [hk]
  simp [hke]

/-- With no configured key (absent or empty) the executor runs the
missing-key branch. -/
theorem make_of_no_key (w : World) (endpoint : String)
    (p : Option (List (String × String)))
    (hk : pyTruthy (w.env API_KEY_ENV_VAR) = false) :
    _make_api_request w endpoint p = configPath w := by
  cases hkk : w.env API_KEY_ENV_VAR with
  | none => simp [_make_api_request, hkk]
  | some k =>
    rw [hkk] at hk
    simp [pyTruthy] at hk
    simp [_make_api_request, hkk, hk]

/-- Every request issued by a call carries exactly the params mapping the
call was given. -/
theorem trace_params_eq (w : World) (endpoint : String)
    (p : Option (List (String × String))) :
    ∀ r ∈ (_make_api_request w endpoint p).2, r.params = p := by
  intro r hr
  by_cases ht : pyTruthy (w.env API_KEY_ENV_VAR) = true
  · obtain ⟨k, hk, hke⟩ := env_key_of_truthy w ht
    rw [make_of_key w endpoint p k hk hke] at hr
    rcases mainPath_trace w k endpoint p with h | h <;> rw [h] at hr
    · exact absurd hr (List.not_mem_nil r)
    · simp at hr
      rw [hr]
      rfl
  · rw [make_of_no_key w endpoint p (by simpa using ht)] at hr
    rw [configPath_trace] at hr
    exact absurd hr (List.not_mem_nil r)

/-- Every request issued by a call has exactly the query-string keys of
the params mapping the call was given. -/
theorem trace_queryKeys_eq (w : World) (endpoint : String)
    (p : Option (List (String × String))) :
    ∀ r ∈ (_make_api_request w endpoint p).2, r.queryKeys = paramKeys p := by
  intro r hr
  have h := trace_params_eq w endpoint p r hr
  unfold HttpRequest.queryKeys paramKeys
  rw [h]

/-- Keys absent from the params mapping are absent from the query string
of every issued request. -/
theorem queryKeys_not_mem_of_trace (w : World) (endpoint : String)
    (p : Option (List (String × String))) (key : String)
    (h : key ∉ paramKeys p) :
    ∀ r ∈ (_make_api_request w endpoint p).2, key ∉ r.queryKeys := by
  intro r hr
  rw [trace_queryKeys_eq w endpoint p r hr]
  exact h

/-- Keys present in the params mapping appear in the query string of
every issued request. -/
theorem queryKeys_mem_of_trace (w : World) (endpoint : String)
    (p : Option (List (String × String))) (key : String)
    (h : key ∈ paramKeys p) :
    ∀ r ∈ (_make_api_request w endpoint p).2, key ∈ r.queryKeys := by
  intro r hr
  rw [trace_queryKeys_eq w endpoint p r hr]
  exact h

/-!  Claim theorems.  -/

/-- C1: for every invocation of the Request Executor, if no API key is
configured in the environment at call time (the variable is absent or
empty, hence Python-falsy), no outbound HTTP request is issued, and —
whenever the diagnostic print succeeds so that a value is returned at
all — the returned envelope has status "error" and error_type
"ConfigurationError". -/
theorem C1_no_key_no_request (w : World) (endpoint : String)
    (params : Option (List (String × String)))
    (hkey : pyTruthy (w.env API_KEY_ENV_VAR) = false) :
    (_make_api_request w endpoint params).2 = [] ∧
    (w.sink 0 = none →
      (_make_api_request w endpoint params).1 =
        Except.ok (Envelope.error "ConfigurationError" configErrorMessage none) ∧
      ∀ e, (_make_api_request w endpoint params).1 = Except.ok e →
        e.statusStr = "error" ∧ e.errorType = some "ConfigurationError") := by
  rw [make_of_no_key w endpoint params hkey]
  refine ⟨configPath_trace w, fun hs => ?_⟩
  have h1 : (configPath w).1 =
      Except.ok (Envelope.error "ConfigurationError" configErrorMessage none) := by
    unfold configPath
    rw [hs]
  refine ⟨h1, fun e he => ?_⟩
  rw [h1] at he
  injection he with h2
  rw [← h2]
  exact ⟨rfl, rfl⟩

/-- C1 witness: concrete run with an empty environment. -/
theorem C1_witness :
    pyTruthy (wNoKey.env API_KEY_ENV_VAR) = false ∧
    (_make_api_request wNoKey "/ipo" none).2 = [] ∧
    (_make_api_request wNoKey "/ipo" none).1 =
      Except.ok (Envelope.error "ConfigurationError" configErrorMessage none) := by
  have h := C1_no_key_no_request wNoKey "/ipo" none rfl
  exact ⟨rfl, h.1, (h.2 rfl).1⟩

/-- C2: for every HTTP response with a 2xx success status (configured
key, reliable log sink): if the body parses as JSON the envelope is the
success envelope carrying exactly the parsed value (pass-through, no
mutation); if it does not parse, the envelope is the
InvalidResponseFormat error whose details are the first 500 characters
of the raw body text. -/
theorem C2_success_envelope (w : World) (endpoint : String)
    (params : Option (List (String × String))) (status : Nat) (body : String)
    (hsink : ∀ n, w.sink n = none)
    (hkey : pyTruthy (w.env API_KEY_ENV_VAR) = true)
    (hhttp : w.http = HttpResult.ok status body)
    (h2xx : 200 ≤ status ∧ status < 300) :
    (∀ d, w.parse body = some d →
      (_make_api_request w endpoint params).1 =
        Except.ok (Envelope.success d)) ∧
    (w.parse body = none →
      (_make_api_request w endpoint params).1 =
        Except.ok (Envelope.error "InvalidResponseFormat"
          "API returned a non-JSON response."
          (some (Details.text (body.take 500))))) := by
  obtain ⟨k, hk, hke⟩ := env_key_of_truthy w hkey
  rw [make_of_key w endpoint params k hk hke,
      mainPath_fst_of_sink w k endpoint params (hsink 0)]
  have hrs : raisesForStatus status = false := by
    have h4 : ¬ 400 ≤ status := by omega
    simp [raisesForStatus, h4]
  constructor
  · intro d hd
    unfold mainBody
    rw [hhttp]
    simp [hrs, hd]
  · intro hn
    unfold mainBody
    rw [hhttp]
    simp [hrs, hn, hsink 1]

/-- C2 witness: concrete 200-with-JSON and 200-with-non-JSON runs. -/
theorem C2_witness :
    (∀ n, wSuccessJson.sink n = none) ∧
    pyTruthy (wSuccessJson.env API_KEY_ENV_VAR) = true ∧
    wSuccessJson.http = HttpResult.ok 200 "\x7b\x7d" ∧
    (200 ≤ 200 ∧ 200 < 300) ∧
    wSuccessJson.parse "\x7b\x7d" = some (Json.obj []) ∧
    (_make_api_request wSuccessJson "/trending" none).1 =
      Except.ok (Envelope.success (Json.obj [])) ∧
    wSuccessNotJson.parse "not-json" = none ∧
    (_make_api_request wSuccessNotJson "/trending" none).1 =
      Except.ok (Envelope.error "InvalidResponseFormat"
        "API returned a non-JSON response."
        (some (Details.text ("not-json".take 500)))) := by
  have h1 := C2_success_envelope wSuccessJson "/trending" none 200 "\x7b\x7d"
    (fun n => rfl) rfl rfl (by omega)
  have h2 := C2_success_envelope wSuccessNotJson "/trending" none 200 "not-json"
    (fun n => rfl) rfl rfl (by omega)
  exact ⟨fun n => rfl, rfl, rfl, by omega, rfl, h1.1 (Json.obj []) rfl, rfl, h2.2 rfl⟩

/-- C3 counterexample: HTTP 304 is a non-2xx status, but
`raise_for_status` raises only for 4xx/5xx, so the code follows the
success path; with a non-JSON body the envelope is InvalidResponseFormat,
not HttpError, refuting the claim for the status range "non-2xx". -/
theorem C3_counterexample_304 :
    (_make_api_request w304 "/stock" (some [("name", "itc")])).1 =
      Except.ok (Envelope.error "InvalidResponseFormat"
        "API returned a non-JSON response."
        (some (Details.text ("not-json".take 500)))) ∧
    ∀ e, (_make_api_request w304 "/stock" (some [("name", "itc")])).1 =
        Except.ok e → e.errorType ≠ some "HttpError" := by
  have h1 : (_make_api_request w304 "/stock" (some [("name", "itc")])).1 =
      Except.ok (Envelope.error "InvalidResponseFormat"
        "API returned a non-JSON response."
        (some (Details.text ("not-json".take 500)))) := rfl
  refine ⟨h1, fun e he => ?_⟩
  rw [h1] at he
  injection he with h2
  rw [← h2]
  intro hcontra
  simp [Envelope.errorType] at hcontra

/-- C3 (amended): for every HTTP response whose status is a 4xx or 5xx
client or server error (configured key, reliable log sink), the envelope
is an HttpError whose details field is the body parsed as JSON when it
parses, and otherwise the first 500 characters of the raw body text. -/
theorem C3_http_error_envelope (w : World) (endpoint : String)
    (params : Option (List (String × String))) (status : Nat) (body : String)
    (hsink : ∀ n, w.sink n = none)
    (hkey : pyTruthy (w.env API_KEY_ENV_VAR) = true)
    (hhttp : w.http = HttpResult.ok status body)
    (herr : 400 ≤ status ∧ status < 600) :
    (∀ d, w.parse body = some d →
      (_make_api_request w endpoint params).1 =
        Except.ok (Envelope.error "HttpError"
          (httpErrorMessage status (w.baseUrl ++ endpoint))
          (some (Details.json d)))) ∧
    (w.parse body = none →
      (_make_api_request w endpoint params).1 =
        Except.ok (Envelope.error "HttpError"
          (httpErrorMessage status (w.baseUrl ++ endpoint))
          (some (Details.text (body.take 500))))) := by
  obtain ⟨k, hk, hke⟩ := env_key_of_truthy w hkey
  rw [make_of_key w endpoint params k hk hke,
      mainPath_fst_of_sink w k endpoint params (hsink 0)]
  have hrs : raisesForStatus status = true := by
    simp [raisesForStatus]
    omega
  constructor
  · intro d hd
    unfold mainBody
    rw [hhttp]
    simp [hrs, outerHandlers, hsink 1, hd]
  · intro hn
    unfold mainBody
    rw [hhttp]
    simp [hrs, outerHandlers, hsink 1, hn]

/-- C3 witness (amended claim): the spec example, an HTTP 404 with JSON
body yielding HttpError with the parsed body as details. -/
theorem C3_witness :
    (∀ n, w404.sink n = none) ∧
    pyTruthy (w404.env API_KEY_ENV_VAR) = true ∧
    w404.http = HttpResult.ok 404 "\x7b\x22detail\x22:\x22not found\x22\x7d" ∧
    (400 ≤ 404 ∧ 404 < 600) ∧
    w404.parse "\x7b\x22detail\x22:\x22not found\x22\x7d" =
      some (Json.obj [("detail", Json.str "not found")]) ∧
    (_make_api_request w404 "/stock" (some [("name", "itc")])).1 =
      Except.ok (Envelope.error "HttpError"
        (httpErrorMessage 404 (w404.baseUrl ++ "/stock"))
        (some (Details.json (Json.obj [("detail", Json.str "not found")])))) := by
  have h := C3_http_error_envelope w404 "/stock" (some [("name", "itc")]) 404
    "\x7b\x22detail\x22:\x22not found\x22\x7d" (fun n => rfl) rfl rfl (by omega)
  exact ⟨fun n => rfl, rfl, rfl, by omega, rfl, h.1 _ rfl⟩

/-- C4: a transport-level failure of the outbound call (configured key,
reliable log sink) yields the RequestError envelope whose message is the
underlying error text and which carries no details; in particular the
error_type is RequestError, never HttpError, InvalidResponseFormat or
ServerError. -/
theorem C4_transport_failure (w : World) (endpoint : String)
    (params : Option (List (String × String))) (msg : String)
    (hsink : ∀ n, w.sink n = none)
    (hkey : pyTruthy (w.env API_KEY_ENV_VAR) = true)
    (hhttp : w.http = HttpResult.raises (PyExc.requestError msg)) :
    (_make_api_request w endpoint params).1 =
      Except.ok (Envelope.error "RequestError" msg none) ∧
    ∀ e, (_make_api_request w endpoint params).1 = Except.ok e →
      e.errorType = some "RequestError" ∧
      e.errorType ≠ some "HttpError" ∧
      e.errorType ≠ some "InvalidResponseFormat" ∧
      e.errorType ≠ some "ServerError" := by
  obtain ⟨k, hk, hke⟩ := env_key_of_truthy w hkey
  rw [make_of_key w endpoint params k hk hke,
      mainPath_fst_of_sink w k endpoint params (hsink 0)]
  have h1 : mainBody w endpoint = Except.ok (Envelope.error "RequestError" msg none) := by
    unfold mainBody
    rw [hhttp]
    simp [outerHandlers, hsink 1]
  refine ⟨h1, fun e he => ?_⟩
  rw [h1] at he
  injection he with h2
  rw [← h2]
  refine ⟨rfl, ?_, ?_, ?_⟩ <;> · intro hcontra; simp [Envelope.errorType] at hcontra

/-- C4 witness: concrete simulated connection timeout. -/
theorem C4_witness :
    (∀ n, wTimeout.sink n = none) ∧
    pyTruthy (wTimeout.env API_KEY_ENV_VAR) = true ∧
    wTimeout.http = HttpResult.raises (PyExc.requestError "connection timed out") ∧
    (_make_api_request wTimeout "/ipo" none).1 =
      Except.ok (Envelope.error "RequestError" "connection timed out" none) := by
  have h := C4_transport_failure wTimeout "/ipo" none "connection timed out"
    (fun n => rfl) rfl rfl
  exact ⟨fun n => rfl, rfl, rfl, h.1⟩

/-- C5 counterexample: a failure raised by the diagnostic print does
change the outcome.  In `wNoKeySinkCrash` (no key, first print raises)
the exception propagates to the caller instead of an envelope being
returned; in `wSinkCrash` (configured key, 200 JSON response, first
print raises) the envelope becomes ServerError, while the identical
world with a reliable sink (`wSuccessJson`) returns the success
envelope — so the sink failure replaced the envelope that would
otherwise have been returned. -/
theorem C5_counterexample_sink_failure :
    (_make_api_request wNoKeySinkCrash "/ipo" none).1 =
      Except.error (PyExc.other "stdout closed") ∧
    (_make_api_request wSinkCrash "/ipo" none).1 =
      Except.ok (Envelope.error "ServerError"
        "An unexpected server error occurred: stdout closed" none) ∧
    (_make_api_request wSuccessJson "/ipo" none).1 =
      Except.ok (Envelope.success (Json.obj [])) := by
  exact ⟨rfl, rfl, rfl⟩

/-- C5 (amended): when the log sink never fails, the Request Executor
always returns an envelope and never propagates a raised fault to the
caller, under every key configuration and every outcome of the outbound
call; the unconditional claim fails because a raising print can replace
the envelope with a ServerError envelope or propagate an exception. -/
theorem C5_executor_total (w : World) (endpoint : String)
    (params : Option (List (String × String)))
    (hsink : ∀ n, w.sink n = none) :
    ∃ e, (_make_api_request w endpoint params).1 = Except.ok e := by
  by_cases ht : pyTruthy (w.env API_KEY_ENV_VAR) = true
  · obtain ⟨k, hk, hke⟩ := env_key_of_truthy w ht
    rw [make_of_key w endpoint params k hk hke,
        mainPath_fst_of_sink w k endpoint params (hsink 0)]
    unfold mainBody
    cases hh : w.http with
    | raises e => exact outerHandlers_ok w e none 1 (hsink 1)
    | ok status body =>
      by_cases hrs : raisesForStatus status = true
      · simp only [hrs, if_true]
        exact outerHandlers_ok w _ _ 1 (hsink 1)
      · have hrs2 : raisesForStatus status = false := by simpa using hrs
        simp only [hrs2, Bool.false_eq_true, if_false]
        cases hp : w.parse body with
        | some d => exact ⟨_, rfl⟩
        | none =>
          rw [hsink 1]
          exact ⟨_, rfl⟩
  · rw [make_of_no_key w endpoint params (by simpa using ht)]
    unfold configPath
    rw [hsink 0]
    exact ⟨_, rfl⟩

/-- C5 witness (amended claim): concrete run with a reliable sink. -/
theorem C5_witness :
    (∀ n, wSuccessJson.sink n = none) ∧
    ∃ e, (_make_api_request wSuccessJson "/news" none).1 = Except.ok e :=
  ⟨fun _ => rfl, C5_executor_total wSuccessJson "/news" none (fun _ => rfl)⟩

/-- C6: the Request Executor reads the key from the process environment
at call time — a call on a world whose environment lacks the primary
variable yields ConfigurationError, while the same call on a world whose
environment now carries a nonempty value issues the request with exactly
that value in the X-Api-Key header — and the module initialization
sources the key from the two recognized variable names: a nonempty
INDIANAPI_KEY wins (in particular when both variables are set), and
FINANCE_API_KEY is used when INDIANAPI_KEY is absent. -/
theorem C6_key_read_at_call_time
    (w1 w2 : World) (endpoint : String) (params : Option (List (String × String)))
    (k k1 k2 : String) (envA envB : String → Option String)
    (h1 : w1.env API_KEY_ENV_VAR = none) (hs1 : w1.sink 0 = none)
    (h2 : w2.env API_KEY_ENV_VAR = some k) (hk : k.isEmpty = false)
    (hs2 : w2.sink 0 = none)
    (hA1 : envA API_KEY_ENV_VAR = some k1) (hk1 : k1.isEmpty = false)
    (hB1 : envB API_KEY_ENV_VAR = none) (hB2 : envB FALLBACK_KEY_ENV_VAR = some k2)
    (hk2 : k2.isEmpty = false) :
    (_make_api_request w1 endpoint params).1 =
      Except.ok (Envelope.error "ConfigurationError" configErrorMessage none) ∧
    (_make_api_request w2 endpoint params).2.map HttpRequest.headers =
      [[("X-Api-Key", k), ("Accept", "application/json")]] ∧
    initEnv envA API_KEY_ENV_VAR = some k1 ∧
    initEnv envB API_KEY_ENV_VAR = some k2 := by
  refine ⟨?_, ?_, ?_, ?_⟩
  · rw [make_of_no_key w1 endpoint params (by rw [h1]; rfl)]
    unfold configPath
    rw [hs1]
  · rw [make_of_key w2 endpoint params k h2 hk,
        mainPath_trace_of_sink w2 k endpoint params hs2]
    rfl
  · simp [initEnv, pyOrStr, pyTruthy, hA1, hk1, setEnv]
  · simp [initEnv, pyOrStr, pyTruthy, hB1, hB2, hk2, setEnv]

/-- C6 witness: concrete worlds and environments (both-keys environment
for the first-wins part, fallback-only environment for the other). -/
theorem C6_witness :
    wNoKey.env API_KEY_ENV_VAR = none ∧
    wSuccessJson.env API_KEY_ENV_VAR = some "testkey" ∧
    (_make_api_request wNoKey "/trending" none).1 =
      Except.ok (Envelope.error "ConfigurationError" configErrorMessage none) ∧
    (_make_api_request wSuccessJson "/trending" none).2.map HttpRequest.headers =
      [[("X-Api-Key", "testkey"), ("Accept", "application/json")]] ∧
    initEnv envBothKeys API_KEY_ENV_VAR = some "primarykey" ∧
    initEnv envFallbackOnly API_KEY_ENV_VAR = some "fallbackkey" := by
  have h := C6_key_read_at_call_time wNoKey wSuccessJson "/trending" none
    "testkey" "primarykey" "fallbackkey" envBothKeys envFallbackOnly
    rfl rfl rfl rfl rfl rfl rfl rfl rfl rfl
  exact ⟨rfl, rfl, h.1, h.2.1, h.2.2.1, h.2.2.2⟩

/-- C7: for every call with a configured (nonempty) key whose
pre-request print succeeds, the Request Executor issues exactly one HTTP
GET: its URL is the base URL concatenated with the tool's path, its
headers carry X-Api-Key with the configured key and Accept with
application/json, its params mapping is exactly the given one (and the
query string is rendered from it), and its timeout is the fixed 15
seconds. -/
theorem C7_request_shape (w : World) (endpoint : String)
    (params : Option (List (String × String))) (k : String)
    (hk : w.env API_KEY_ENV_VAR = some k) (hke : k.isEmpty = false)
    (hs : w.sink 0 = none) :
    (_make_api_request w endpoint params).2 =
      [{ url := w.baseUrl ++ endpoint,
         headers := [("X-Api-Key", k), ("Accept", "application/json")],
         params := params,
         timeout := 15 }] ∧
    ∀ r ∈ (_make_api_request w endpoint params).2,
      r.queryString = renderQuery params := by
  rw [make_of_key w endpoint params k hk hke]
  have ht : (mainPath w k endpoint params).2 = [mkRequest w k endpoint params] :=
    mainPath_trace_of_sink w k endpoint params hs
  refine ⟨by rw [ht]; rfl, fun r hr => ?_⟩
  rw [ht] at hr
  simp at hr
  rw [hr]
  rfl

/-- C7 witness: concrete request for the stock-details call. -/
theorem C7_witness :
    wSuccessJson.env API_KEY_ENV_VAR = some "testkey" ∧
    "testkey".isEmpty = false ∧
    wSuccessJson.sink 0 = none ∧
    (_make_api_request wSuccessJson "/stock" (some [("name", "itc")])).2 =
      [{ url := wSuccessJson.baseUrl ++ "/stock",
         headers := [("X-Api-Key", "testkey"), ("Accept", "application/json")],
         params := some [("name", "itc")],
         timeout := 15 }] := by
  have h := C7_request_shape wSuccessJson "/stock" (some [("name", "itc")])
    "testkey" rfl rfl rfl
  exact ⟨rfl, rfl, rfl, h.1⟩

/-- Truthiness of the absent optional argument. -/
theorem pyTruthy_none : pyTruthy none = false := rfl

/-- C8: for every tool with optional parameters and every invocation in
which the caller leaves an optional parameter unset, the params mapping
passed to the Request Executor omits that key entirely, and hence so
does the outbound query string of every request issued for the call (the
key is never sent as an empty string or null: it is simply absent). -/
theorem C8_unset_optional_omitted (w : World) :
    (∀ s, "q" ∉ paramKeys (get_news_data_params none s) ∧
      ∀ r ∈ (get_news_data w none s).2, "q" ∉ r.queryKeys) ∧
    (∀ q, "symbol" ∉ paramKeys (get_news_data_params q none) ∧
      ∀ r ∈ (get_news_data w q none).2, "symbol" ∉ r.queryKeys) ∧
    ("name" ∉ paramKeys (get_commodities_data_params none) ∧
      ∀ r ∈ (get_commodities_data w none).2, "name" ∉ r.queryKeys) ∧
    ("category" ∉ paramKeys (get_mutual_funds_data_params none) ∧
      ∀ r ∈ (get_mutual_funds_data w none).2, "category" ∉ r.queryKeys) ∧
    ("symbol" ∉ paramKeys (get_recent_announcements_params none) ∧
      ∀ r ∈ (get_recent_announcements w none).2, "symbol" ∉ r.queryKeys) ∧
    (∀ s, "type" ∉ paramKeys (get_corporate_actions_params s none) ∧
      ∀ r ∈ (get_corporate_actions w s none).2, "type" ∉ r.queryKeys) ∧
    (∀ q, "category" ∉ paramKeys (search_mutual_funds_params q none) ∧
      ∀ r ∈ (search_mutual_funds w q none).2, "category" ∉ r.queryKeys) ∧
    (∀ rt, "exchange" ∉ paramKeys (fetch_52_week_high_low_data_params rt none) ∧
      ∀ r ∈ (fetch_52_week_high_low_data w rt none).2, "exchange" ∉ r.queryKeys) := by
  have hq : ∀ s, "q" ∉ paramKeys (get_news_data_params none s) := by
    intro s
    cases h : pyTruthy s <;>
      simp [get_news_data_params, paramKeys, pyTruthy_none, h]
  have hsym : ∀ q, "symbol" ∉ paramKeys (get_news_data_params q none) := by
    intro q
    cases h : pyTruthy q <;>
      simp [get_news_data_params, paramKeys, pyTruthy_none, h]
  have hname : "name" ∉ paramKeys (get_commodities_data_params none) := by
    simp [get_commodities_data_params, paramKeys, pyTruthy]
  have hcat : "category" ∉ paramKeys (get_mutual_funds_data_params none) := by
    simp [get_mutual_funds_data_params, paramKeys, pyTruthy]
  have hann : "symbol" ∉ paramKeys (get_recent_announcements_params none) := by
    simp [get_recent_announcements_params, paramKeys, pyTruthy]
  have hact : ∀ s, "type" ∉ paramKeys (get_corporate_actions_params s none) := by
    intro s
    simp [get_corporate_actions_params, paramKeys, pyTruthy]
  have hmf : ∀ q, "category" ∉ paramKeys (search_mutual_funds_params q none) := by
    intro q
    simp [search_mutual_funds_params, paramKeys, pyTruthy]
  have hex : ∀ rt, "exchange" ∉ paramKeys (fetch_52_week_high_low_data_params rt none) := by
    intro rt
    simp [fetch_52_week_high_low_data_params, paramKeys, pyTruthy]
  refine ⟨fun s => ⟨hq s, ?_⟩, fun q => ⟨hsym q, ?_⟩, ⟨hname, ?_⟩, ⟨hcat, ?_⟩,
          ⟨hann, ?_⟩, fun s => ⟨hact s, ?_⟩, fun q => ⟨hmf q, ?_⟩,
          fun rt => ⟨hex rt, ?_⟩⟩
  · exact queryKeys_not_mem_of_trace w "/news" _ "q" (hq s)
  · exact queryKeys_not_mem_of_trace w "/news" _ "symbol" (hsym q)
  · exact queryKeys_not_mem_of_trace w "/commodities" _ "name" hname
  · exact queryKeys_not_mem_of_trace w "/mutual_funds" _ "category" hcat
  · exact queryKeys_not_mem_of_trace w "/recent_announcements" _ "symbol" hann
  · exact queryKeys_not_mem_of_trace w "/corporate_actions" _ "type" (hact s)
  · exact queryKeys_not_mem_of_trace w "/mutual_fund_search" _ "category" (hmf q)
  · exact queryKeys_not_mem_of_trace w "/fetch_52_week_high_low_data" _ "exchange" (hex rt)

/-- C8 witness: concrete news call with only the symbol argument; the
issued request carries no "q" key. -/
theorem C8_witness :
    (get_news_data wSuccessJson none (some "ITC")).2 =
      [mkRequest wSuccessJson "testkey" "/news" (some [("symbol", "ITC")])] ∧
    "q" ∉ (mkRequest wSuccessJson "testkey" "/news" (some [("symbol", "ITC")])).queryKeys := by
  refine ⟨rfl, ?_⟩
  exact ((C8_unset_optional_omitted wSuccessJson).1 (some "ITC")).2
    (mkRequest wSuccessJson "testkey" "/news" (some [("symbol", "ITC")]))
    (List.Mem.head [])

/-- C9: for every tool whose optional string parameters default to None,
passing the empty string behaves exactly as omitting the argument (the
whole call result is equal, world for world), and for the tools whose
params dict can end up empty the params argument passed to the executor
is then absent (None), not an empty mapping. -/
theorem C9_empty_string_like_omitted (w : World) :
    (∀ s, get_news_data w (some "") s = get_news_data w none s) ∧
    (∀ q, get_news_data w q (some "") = get_news_data w q none) ∧
    (get_commodities_data w (some "") = get_commodities_data w none) ∧
    (get_mutual_funds_data w (some "") = get_mutual_funds_data w none) ∧
    (get_recent_announcements w (some "") = get_recent_announcements w none) ∧
    (∀ s, get_corporate_actions w s (some "") = get_corporate_actions w s none) ∧
    (∀ q, search_mutual_funds w q (some "") = search_mutual_funds w q none) ∧
    (∀ rt, fetch_52_week_high_low_data w rt (some "") =
      fetch_52_week_high_low_data w rt none) ∧
    (get_news_data_params (some "") (some "") = none ∧
      get_news_data_params none none = none) ∧
    (get_commodities_data_params (some "") = none ∧
      get_commodities_data_params none = none) ∧
    (get_mutual_funds_data_params (some "") = none ∧
      get_mutual_funds_data_params none = none) ∧
    (get_recent_announcements_params (some "") = none ∧
      get_recent_announcements_params none = none) := by
  exact ⟨fun s => rfl, fun q => rfl, rfl, rfl, rfl, fun s => rfl, fun q => rfl,
         fun rt => rfl, ⟨rfl, rfl⟩, ⟨rfl, rfl⟩, ⟨rfl, rfl⟩, ⟨rfl, rfl⟩⟩

/-- C10: every tool parameter that is optional with a non-None default
(interval of get_historical_stock_data, statement type and period of
get_financial_statement, stats of get_historical_stats, range type of
fetch_52_week_high_low_data) is always present in the params mapping and
hence in the query string of every issued request, whatever value the
caller passes; calling with the Python default value sends that default
rather than omitting the key. -/
theorem C10_defaulted_params_present (w : World) :
    (∀ s f t i, ("interval", i) ∈ (get_historical_stock_data_params s f t i).getD [] ∧
      "interval" ∈ paramKeys (get_historical_stock_data_params s f t i) ∧
      ∀ r ∈ (get_historical_stock_data w s f t i).2, "interval" ∈ r.queryKeys) ∧
    (∀ sn st ty p, ("type", ty) ∈ (get_financial_statement_params sn st ty p).getD [] ∧
      ("period", p) ∈ (get_financial_statement_params sn st ty p).getD [] ∧
      ∀ r ∈ (get_financial_statement w sn st ty p).2,
        "type" ∈ r.queryKeys ∧ "period" ∈ r.queryKeys) ∧
    (∀ sn st, ("stats", st) ∈ (get_historical_stats_params sn st).getD [] ∧
      ∀ r ∈ (get_historical_stats w sn st).2, "stats" ∈ r.queryKeys) ∧
    (∀ rt ex, ("type", rt) ∈ (fetch_52_week_high_low_data_params rt ex).getD [] ∧
      ∀ r ∈ (fetch_52_week_high_low_data w rt ex).2, "type" ∈ r.queryKeys) ∧
    ("interval", "1d") ∈
      (get_historical_stock_data_params "TCS" "2024-01-01" "2024-02-01" "1d").getD [] ∧
    ("type", "income") ∈
      (get_financial_statement_params "TCS" "all" "income" "annual").getD [] ∧
    ("period", "annual") ∈
      (get_financial_statement_params "TCS" "all" "income" "annual").getD [] ∧
    ("stats", "volatility") ∈ (get_historical_stats_params "TCS" "volatility").getD [] ∧
    ("type", "high") ∈ (fetch_52_week_high_low_data_params "high" none).getD [] := by
  have hint : ∀ s f t i, "interval" ∈ paramKeys (get_historical_stock_data_params s f t i) := by
    intro s f t i
    simp [get_historical_stock_data_params, paramKeys]
  have hty : ∀ sn st ty p, "type" ∈ paramKeys (get_financial_statement_params sn st ty p) := by
    intro sn st ty p
    simp [get_financial_statement_params, paramKeys]
  have hpd : ∀ sn st ty p, "period" ∈ paramKeys (get_financial_statement_params sn st ty p) := by
    intro sn st ty p
    simp [get_financial_statement_params, paramKeys]
  have hst : ∀ sn st, "stats" ∈ paramKeys (get_historical_stats_params sn st) := by
    intro sn st
    simp [get_historical_stats_params, paramKeys]
  have hrt : ∀ rt ex, "type" ∈ paramKeys (fetch_52_week_high_low_data_params rt ex) := by
    intro rt ex
    by_cases h : pyTruthy ex = true <;>
      simp [fetch_52_week_high_low_data_params, paramKeys, h]
  refine ⟨fun s f t i => ⟨?_, hint s f t i, ?_⟩,
          fun sn st ty p => ⟨?_, ?_, fun r hr => ⟨?_, ?_⟩⟩,
          fun sn st => ⟨?_, ?_⟩, fun rt ex => ⟨?_, ?_⟩, ?_, ?_, ?_, ?_, ?_⟩
  · simp [get_historical_stock_data_params]
  · exact queryKeys_mem_of_trace w "/historical_data" _ "interval" (hint s f t i)
  · simp [get_financial_statement_params]
  · simp [get_financial_statement_params]
  · exact queryKeys_mem_of_trace w "/statement" _ "type" (hty sn st ty p) r hr
  · exact queryKeys_mem_of_trace w "/statement" _ "period" (hpd sn st ty p) r hr
  · simp [get_historical_stats_params]
  · exact queryKeys_mem_of_trace w "/historical_stats" _ "stats" (hst sn st)
  · simp [fetch_52_week_high_low_data_params]
  · exact queryKeys_mem_of_trace w "/fetch_52_week_high_low_data" _ "type" (hrt rt ex)
  · simp [get_historical_stock_data_params]
  · simp [get_financial_statement_params]
  · simp [get_financial_statement_params]
  · simp [get_historical_stats_params]
  · simp [fetch_52_week_high_low_data_params, pyTruthy]

/-- C10 witness: concrete historical-data call with the default interval;
the issued request carries the interval key with the default value. -/
theorem C10_witness :
    (get_historical_stock_data wSuccessJson "TCS" "2024-01-01" "2024-02-01" "1d").2 =
      [mkRequest wSuccessJson "testkey" "/historical_data"
        (some [("symbol", "TCS"), ("from", "2024-01-01"),
               ("to", "2024-02-01"), ("interval", "1d")])] ∧
    "interval" ∈ (mkRequest wSuccessJson "testkey" "/historical_data"
        (some [("symbol", "TCS"), ("from", "2024-01-01"),
               ("to", "2024-02-01"), ("interval", "1d")])).queryKeys := by
  refine ⟨rfl, ?_⟩
  exact ((C10_defaulted_params_present wSuccessJson).1
    "TCS" "2024-01-01" "2024-02-01" "1d").2.2
    (mkRequest wSuccessJson "testkey" "/historical_data"
      (some [("symbol", "TCS"), ("from", "2024-01-01"),
             ("to", "2024-02-01"), ("interval", "1d")]))
    (List.Mem.head [])
